import Mathlib

/-!
Verification of the global map-click coordinator of the heritage-map
repository (src/unnamed/part_000, the `useGlobalClick` hook).

The hook's click handler is embedded as a pure function from an
environment (map instance, panel store state, layer registries,
externally supplied policy predicate and extractors) and a click event
to a `ClickOutcome` record collecting every observable effect of one
synchronous handler invocation: the panel store after the call, whether
it was written, the `LocationInfo` passed to the detail callback (if
any), which event-claiming calls were made, whether a console warning
was emitted, and the handler's return value (`some false` for the JS
`return false`, `none` for the implicit `return undefined`).

The registration / teardown effect is embedded as a small state machine
over `RegState` (registered flag, number of attached click listeners,
number of pending one-shot "style.load" subscriptions).
-/

namespace HeritageMap

/-- Panel UI store state `{isOpen, isFullscreen, showOverview}`. -/
structure PanelState where
  isOpen : Bool
  isFullscreen : Bool
  showOverview : Bool
deriving DecidableEq, Repr

/-- The layer a rendered feature belongs to (mapbox `feature.layer`). -/
structure Layer where
  id : String
deriving DecidableEq, Repr

/-- Feature geometry: its `type` tag and, for point geometries, the
point coordinates (longitude, latitude). -/
structure Geometry where
  type : String
  coordinates : Rat × Rat
deriving DecidableEq, Repr

/-- A rendered map feature as used by the handler: an optional layer
(`feature.layer?`) and an optional geometry (`feature.geometry?`). -/
structure Feature where
  layer : Option Layer
  geometry : Option Geometry
deriving DecidableEq, Repr

/-- Normalized record describing a clicked entity. `coordinates` is the
display coordinate pair; `data` stands for the category-specific
metadata an extractor fills in. -/
structure LocationInfo where
  coordinates : Rat × Rat
  data : String
deriving DecidableEq, Repr

/-- A screen-space point (mapbox `Point`). -/
abbrev ScreenPoint := Rat × Rat

/-- The slice of the mapbox map object the hook consumes:
`isStyleLoaded()`, `getZoom()` and `queryRenderedFeatures`. -/
structure MapInstance where
  styleLoaded : Bool
  zoom : Rat
  queryRenderedFeatures : ScreenPoint → List String → List Feature

/-- A map click event: screen point, geographic `lngLat`, and whether a
native `originalEvent` is present (the code guards every native call
with `e.originalEvent?.`). -/
structure ClickEvent where
  point : ScreenPoint
  lngLat : Rat × Rat
  hasOriginalEvent : Bool

/-- The environment of one synchronous handler invocation: the hook's
props (`mapInstance`, presence of `onShowDetailedInfo`, `minZoomLevel`
defaulting to 17), the external policy predicate `canInteract`, the two
layer registries (`unclusteredLayerIds` from the building module and the
value `getInteractionLayerIds()` returns at this instant), the panel
store state, and the two external extractors. -/
structure Env where
  mapInstance : Option MapInstance
  hasCallback : Bool
  minZoomLevel : Rat := 17
  canInteract : Rat → String → Bool
  unclusteredLayerIds : List String
  interactionLayerIds : List String
  panel : PanelState
  getBuildingLocationInfo : Feature → LocationInfo
  getHistoricalLocationInfo : Feature → LocationInfo

/-- Embedding of `queryInteractiveFeatures` (part_000 lines 24-43):
build the interactive layer id set, return `[]` if it is empty, and
otherwise delegate to `mapInstance?.queryRenderedFeatures`; `none`
models the `undefined` produced when the map instance is absent. -/
def queryInteractiveFeatures (env : Env) (point : ScreenPoint) :
    Option (List Feature) :=
  let interactiveLayerIds := env.unclusteredLayerIds ++ env.interactionLayerIds
  if interactiveLayerIds.length = 0 then
    some []
  else
    match env.mapInstance with
    | none => none
    | some m => some (m.queryRenderedFeatures point interactiveLayerIds)

/-- Every observable effect of one click-handler invocation. -/
structure ClickOutcome where
  panel : PanelState
  panelWritten : Bool
  callback : Option LocationInfo
  prevented : Bool
  nativePrevented : Bool
  nativeStopped : Bool
  nativeImmediateStopped : Bool
  warned : Bool
  retVal : Option Bool
deriving DecidableEq, Repr

/-- Outcome of a silent abort: store untouched, no callback, no
event-claiming calls, no warning, `undefined` returned. -/
def noEffect (env : Env) : ClickOutcome :=
  { panel := env.panel
    panelWritten := false
    callback := none
    prevented := false
    nativePrevented := false
    nativeStopped := false
    nativeImmediateStopped := false
    warned := false
    retVal := none }

/-- Display coordinates (part_000 lines 93-98): the feature's own
coordinates when `feature.geometry?.type === "Point"`, else the click's
`lngLat`. -/
def displayCoordinates (feature : Feature) (e : ClickEvent) : Rat × Rat :=
  match feature.geometry with
  | some g => if g.type == "Point" then g.coordinates else e.lngLat
  | none => e.lngLat

/-- Embedding of part_000 lines 86-115, the block entered once the
topmost feature's layer id `lid` is JS-truthy: claim the event
(`e.preventDefault()`, and the three native calls guarded by
`e.originalEvent?.`), compute display coordinates, classify by layer id
testing the building set first (lodash `includes`), overwrite the
extracted record's coordinates and invoke the callback returning
`false`; for an unclassified id, log a warning and return `false`. -/
def classifyOutcome (env : Env) (e : ClickEvent) (feature : Feature)
    (lid : String) : ClickOutcome :=
  let claimed : ClickOutcome :=
    { noEffect env with
        prevented := true
        nativePrevented := e.hasOriginalEvent
        nativeStopped := e.hasOriginalEvent
        nativeImmediateStopped := e.hasOriginalEvent }
  let coordinates := displayCoordinates feature e
  if env.unclusteredLayerIds.contains lid then
    { claimed with
        callback := some { env.getBuildingLocationInfo feature with
          coordinates := coordinates }
        retVal := some false }
  else if env.interactionLayerIds.contains lid then
    { claimed with
        callback := some { env.getHistoricalLocationInfo feature with
          coordinates := coordinates }
        retVal := some false }
  else
    { claimed with warned := true, retVal := some false }

/-- Embedding of `handleGlobalClick` (part_000 lines 46-116). Guards in
source order: missing map or callback; style not loaded; zoom gate
(`!canInteract(zoom, "minZoomForLabelClicks") || zoom <= minZoomLevel`);
panel open and not fullscreen (partial store write, `return false`);
query via `queryInteractiveFeatures`; empty or missing result; topmost
feature's `layer?.id` JS-truthy (present and nonempty), else the
implicit `return undefined`; then the claim-classify-dispatch block
`classifyOutcome`. -/
def handleGlobalClick (env : Env) (e : ClickEvent) : ClickOutcome :=
  match env.mapInstance with
  | none => noEffect env
  | some m =>
    if !env.hasCallback then noEffect env
    else if !m.styleLoaded then noEffect env
    else if !(env.canInteract m.zoom "minZoomForLabelClicks")
        || decide (m.zoom ≤ env.minZoomLevel) then noEffect env
    else if env.panel.isOpen && !env.panel.isFullscreen then
      { noEffect env with
          panel := { env.panel with isFullscreen := true, showOverview := true }
          panelWritten := true
          retVal := some false }
    else
      match queryInteractiveFeatures env e.point with
      | none => noEffect env
      | some [] => noEffect env
      | some (feature :: _) =>
        match feature.layer with
        | none => noEffect env
        | some l =>
          if l.id == "" then noEffect env
          else classifyOutcome env e feature l.id

/-- Replace the underlying spatial query of the map instance (used to
state that a branch never invokes it: the outcome is the same for every
underlying query). -/
def setQuery (env : Env) (q : ScreenPoint → List String → List Feature) : Env :=
  { env with
      mapInstance := env.mapInstance.map
        (fun m => { m with queryRenderedFeatures := q }) }

/-- State of the registration effect: the `hasRegisteredRef` flag, the
number of click listeners currently attached to the map, and the number
of pending one-shot "style.load" subscriptions. -/
structure RegState where
  hasRegistered : Bool
  listeners : Nat
  pendingOnce : Nat
deriving DecidableEq, Repr

/-- Initial registration state: flag false, nothing attached. -/
def RegState.init : RegState :=
  { hasRegistered := false, listeners := 0, pendingOnce := 0 }

/-- Embedding of the `useEffect` body (part_000 lines 121-141): bail out
if no map or already registered; if the style is loaded attach the click
listener and set the flag; otherwise subscribe once to "style.load". -/
def effectRun (mapPresent styleLoaded : Bool) (s : RegState) : RegState :=
  if !mapPresent || s.hasRegistered then s
  else if styleLoaded then
    { s with listeners := s.listeners + 1, hasRegistered := true }
  else
    { s with pendingOnce := s.pendingOnce + 1 }

/-- The map fires "style.load": every pending one-shot subscription runs
its callback exactly once (attaching a click listener and setting the
flag, part_000 lines 133-137) and is consumed. -/
def fireStyleLoad (s : RegState) : RegState :=
  if s.pendingOnce = 0 then s
  else
    { hasRegistered := true
      listeners := s.listeners + s.pendingOnce
      pendingOnce := 0 }

/-- Embedding of the effect cleanup (part_000 lines 144-155): if the
flag is set, try to detach the click listener, catching a detach
failure and logging a warning (the returned Bool); the flag is reset to
false unconditionally. A throwing `off` leaves the listener attached. -/
def cleanupRun (detachThrows : Bool) (s : RegState) : RegState × Bool :=
  if s.hasRegistered then
    if detachThrows then ({ s with hasRegistered := false }, true)
    else ({ s with hasRegistered := false, listeners := s.listeners - 1 }, false)
  else ({ s with hasRegistered := false }, false)

/-! Concrete sample data used by the witness theorems. -/

/-- Sample building-layer feature with point geometry. -/
def sampleFeature : Feature :=
  { layer := some { id := "building-a" }
    geometry := some { type := "Point", coordinates := (12, 41) } }

/-- Sample map: style loaded, zoom 18, the query always returns the
sample feature. -/
def sampleMap : MapInstance :=
  { styleLoaded := true
    zoom := 18
    queryRenderedFeatures := fun _ _ => [sampleFeature] }

/-- Sample environment: map present, callback configured, default
minimum zoom, permissive policy, one building layer and one historical
layer, panel closed. -/
def sampleEnv : Env :=
  { mapInstance := some sampleMap
    hasCallback := true
    canInteract := fun _ _ => true
    unclusteredLayerIds := ["building-a"]
    interactionLayerIds := ["hist-a"]
    panel := { isOpen := false, isFullscreen := false, showOverview := false }
    getBuildingLocationInfo := fun _ => { coordinates := (0, 0), data := "building" }
    getHistoricalLocationInfo := fun _ => { coordinates := (0, 0), data := "historical" } }

/-- Sample click event. -/
def sampleEvent : ClickEvent :=
  { point := (100, 200), lngLat := (116, 39), hasOriginalEvent := true }

/-- Sample environment with the panel open and not fullscreen. -/
def sampleEnvPanelOpen : Env :=
  { sampleEnv with
      panel := { isOpen := true, isFullscreen := false, showOverview := false } }

/-- Sample map at zoom 16, below the default minimum of 17. -/
def sampleMapLowZoom : MapInstance := { sampleMap with zoom := 16 }

/-- Sample environment whose map sits at zoom 16. -/
def sampleEnvLowZoom : Env := { sampleEnv with mapInstance := some sampleMapLowZoom }

/-- Sample feature whose layer id belongs to neither layer set. -/
def sampleFeatureUnknown : Feature :=
  { layer := some { id := "mystery" }, geometry := none }

/-- Sample map whose query returns only the unknown-layer feature. -/
def sampleMapUnknown : MapInstance :=
  { sampleMap with queryRenderedFeatures := fun _ _ => [sampleFeatureUnknown] }

/-- Sample environment whose topmost queried feature is unclassified. -/
def sampleEnvUnknown : Env := { sampleEnv with mapInstance := some sampleMapUnknown }

/-- Sample environment where the building layer id also appears in the
historical layer set. -/
def sampleEnvOverlap : Env :=
  { sampleEnv with interactionLayerIds := ["building-a", "hist-a"] }

/-- Sample environment with an empty interactive layer id set. -/
def sampleEnvNoLayers : Env :=
  { sampleEnv with unclusteredLayerIds := [], interactionLayerIds := [] }

/-- Sample environment with no map instance. -/
def sampleEnvNoMap : Env := { sampleEnv with mapInstance := none }

/-! Helper lemmas shared by several claim theorems. -/

/-- When every gate passes and the panel is open but not fullscreen, the
handler takes the panel-expand branch: partial store write and
`return false`, nothing else. -/
lemma handleGlobalClick_panelBranch (env : Env) (m : MapInstance) (e : ClickEvent)
    (hm : env.mapInstance = some m)
    (hcb : env.hasCallback = true)
    (hst : m.styleLoaded = true)
    (hpol : env.canInteract m.zoom "minZoomForLabelClicks" = true)
    (hz : env.minZoomLevel < m.zoom)
    (hopen : env.panel.isOpen = true)
    (hfs : env.panel.isFullscreen = false) :
    handleGlobalClick env e =
      { noEffect env with
          panel := { env.panel with isFullscreen := true, showOverview := true }
          panelWritten := true
          retVal := some false } := by
  have hzb : ¬ (m.zoom ≤ env.minZoomLevel) := not_le.mpr hz
  unfold handleGlobalClick
  rw [hm]
  simp [hcb, hst, hpol, hzb, hopen, hfs]

/-- When every gate passes, the panel branch is not taken, the query
returns a nonempty list and the topmost feature has a JS-truthy layer
id, the handler reduces to the claim-classify-dispatch block. -/
lemma handleGlobalClick_featurePath (env : Env) (m : MapInstance) (e : ClickEvent)
    (feature : Feature) (rest : List Feature) (l : Layer)
    (hm : env.mapInstance = some m)
    (hcb : env.hasCallback = true)
    (hst : m.styleLoaded = true)
    (hpol : env.canInteract m.zoom "minZoomForLabelClicks" = true)
    (hz : env.minZoomLevel < m.zoom)
    (hpanel : (env.panel.isOpen && !env.panel.isFullscreen) = false)
    (hq : queryInteractiveFeatures env e.point = some (feature :: rest))
    (hl : feature.layer = some l)
    (hid : l.id ≠ "") :
    handleGlobalClick env e = classifyOutcome env e feature l.id := by
  have hzb : ¬ (m.zoom ≤ env.minZoomLevel) := not_le.mpr hz
  unfold handleGlobalClick
  rw [hm]
  simp [hcb, hst, hpol, hzb, hpanel, hq, hl, hid]

/-! Claim theorems. -/

/-- C1: for every click handled at qualifying zoom while the panel store
reads `isOpen = true` and `isFullscreen = false`, the handler writes the
panel store so that it becomes `{isOpen := true, isFullscreen := true,
showOverview := true}` (`isOpen` left unchanged), never invokes the
detail callback, and does not perform the feature query (the outcome is
identical for every underlying spatial query), regardless of what is
under the click point. -/
theorem panelExpand_forces_fullscreen (env : Env) (m : MapInstance) (e : ClickEvent)
    (hm : env.mapInstance = some m)
    (hcb : env.hasCallback = true)
    (hst : m.styleLoaded = true)
    (hpol : env.canInteract m.zoom "minZoomForLabelClicks" = true)
    (hz : env.minZoomLevel < m.zoom)
    (hopen : env.panel.isOpen = true)
    (hfs : env.panel.isFullscreen = false) :
    (handleGlobalClick env e).panel =
      { isOpen := true, isFullscreen := true, showOverview := true } ∧
    (handleGlobalClick env e).panelWritten = true ∧
    (handleGlobalClick env e).callback = none ∧
    ∀ q, handleGlobalClick (setQuery env q) e = handleGlobalClick env e := by
  have h0 := handleGlobalClick_panelBranch env m e hm hcb hst hpol hz hopen hfs
  refine ⟨?_, ?_, ?_, ?_⟩
  · rw [h0]
    show PanelState.mk env.panel.isOpen true true = _
    rw [hopen]
  · rw [h0]
  · rw [h0]; rfl
  · intro q
    have h1 := handleGlobalClick_panelBranch (setQuery env q)
      { m with queryRenderedFeatures := q } e (by simp [setQuery, hm])
      hcb hst hpol hz hopen hfs
    rw [h0, h1]; rfl

/-- C1 witness: at the concrete panel-open environment the hypotheses
hold and the store becomes fully open with overview, no callback. -/
theorem panelExpand_forces_fullscreen_witness :
    sampleEnvPanelOpen.panel.isOpen = true ∧
    sampleEnvPanelOpen.panel.isFullscreen = false ∧
    (handleGlobalClick sampleEnvPanelOpen sampleEvent).panel =
      { isOpen := true, isFullscreen := true, showOverview := true } ∧
    (handleGlobalClick sampleEnvPanelOpen sampleEvent).callback = none :=
  ⟨rfl, rfl,
   (panelExpand_forces_fullscreen sampleEnvPanelOpen sampleMap sampleEvent
     rfl rfl rfl rfl (by decide) rfl rfl).1,
   (panelExpand_forces_fullscreen sampleEnvPanelOpen sampleMap sampleEvent
     rfl rfl rfl rfl (by decide) rfl rfl).2.2.1⟩

/-- C2: for every click, if the policy predicate rejects the current
zoom or the zoom is at most `minZoomLevel`, the handler aborts silently:
no callback, no store write, event not claimed, `undefined` returned. -/
theorem zoomGate_silent_abort (env : Env) (m : MapInstance) (e : ClickEvent)
    (hm : env.mapInstance = some m)
    (hgate : env.canInteract m.zoom "minZoomForLabelClicks" = false ∨
      m.zoom ≤ env.minZoomLevel) :
    handleGlobalClick env e = noEffect env := by
  unfold handleGlobalClick
  rw [hm]
  cases hcb : env.hasCallback with
  | false => simp [hcb]
  | true =>
    cases hst : m.styleLoaded with
    | false => simp [hst]
    | true =>
      rcases hgate with h | h
      · simp [hst, h]
      · simp [hst, h]

/-- C2 witness: a concrete click at zoom 16 with the default minimum 17
is silently ignored. -/
theorem zoomGate_silent_abort_witness :
    sampleMapLowZoom.zoom ≤ sampleEnvLowZoom.minZoomLevel ∧
    handleGlobalClick sampleEnvLowZoom sampleEvent = noEffect sampleEnvLowZoom :=
  ⟨by decide,
   zoomGate_silent_abort sampleEnvLowZoom sampleMapLowZoom sampleEvent rfl
     (Or.inr (by decide))⟩

/-- C7 counterexample: at a concrete qualifying click with the panel
open and not fullscreen, the panel-expand branch is taken (the store is
written) yet neither `preventDefault` nor any propagation stop is
applied, refuting the claim that this branch claims the event the way
the feature path does. -/
theorem panelExpand_claims_event_counterexample :
    (handleGlobalClick sampleEnvPanelOpen sampleEvent).panelWritten = true ∧
    (handleGlobalClick sampleEnvPanelOpen sampleEvent).prevented = false ∧
    (handleGlobalClick sampleEnvPanelOpen sampleEvent).nativePrevented = false ∧
    (handleGlobalClick sampleEnvPanelOpen sampleEvent).nativeStopped = false ∧
    (handleGlobalClick sampleEnvPanelOpen sampleEvent).nativeImmediateStopped = false := by
  decide

/-- C7 amended: on the panel-expand branch the handler returns the
handled signal `false` but performs none of the event-claiming calls;
`preventDefault` and the propagation stops happen only on the feature
path. -/
theorem panelExpand_returns_false_without_claiming (env : Env) (m : MapInstance)
    (e : ClickEvent)
    (hm : env.mapInstance = some m)
    (hcb : env.hasCallback = true)
    (hst : m.styleLoaded = true)
    (hpol : env.canInteract m.zoom "minZoomForLabelClicks" = true)
    (hz : env.minZoomLevel < m.zoom)
    (hopen : env.panel.isOpen = true)
    (hfs : env.panel.isFullscreen = false) :
    (handleGlobalClick env e).retVal = some false ∧
    (handleGlobalClick env e).prevented = false ∧
    (handleGlobalClick env e).nativePrevented = false ∧
    (handleGlobalClick env e).nativeStopped = false ∧
    (handleGlobalClick env e).nativeImmediateStopped = false := by
  have h0 := handleGlobalClick_panelBranch env m e hm hcb hst hpol hz hopen hfs
  rw [h0]
  exact ⟨rfl, rfl, rfl, rfl, rfl⟩

/-- C7 amended witness: the concrete panel-open click returns `false`
and makes no claiming call. -/
theorem panelExpand_returns_false_without_claiming_witness :
    sampleEnvPanelOpen.panel.isOpen = true ∧
    (handleGlobalClick sampleEnvPanelOpen sampleEvent).retVal = some false ∧
    (handleGlobalClick sampleEnvPanelOpen sampleEvent).prevented = false :=
  ⟨rfl,
   (panelExpand_returns_false_without_claiming sampleEnvPanelOpen sampleMap
     sampleEvent rfl rfl rfl rfl (by decide) rfl rfl).1,
   (panelExpand_returns_false_without_claiming sampleEnvPanelOpen sampleMap
     sampleEvent rfl rfl rfl rfl (by decide) rfl rfl).2.1⟩

/-- C3: for every click where the topmost queried feature's layer id is
in the building layer set (and the callback fires), the `LocationInfo`
passed to the callback is the building extractor's record with its
coordinates overwritten: the feature's point-geometry coordinates when
the geometry type is "Point", otherwise the click's longitude/latitude. -/
theorem building_callback_coordinates (env : Env) (m : MapInstance)
    (e : ClickEvent) (feature : Feature) (rest : List Feature) (l : Layer)
    (hm : env.mapInstance = some m)
    (hcb : env.hasCallback = true)
    (hst : m.styleLoaded = true)
    (hpol : env.canInteract m.zoom "minZoomForLabelClicks" = true)
    (hz : env.minZoomLevel < m.zoom)
    (hpanel : (env.panel.isOpen && !env.panel.isFullscreen) = false)
    (hq : queryInteractiveFeatures env e.point = some (feature :: rest))
    (hl : feature.layer = some l)
    (hid : l.id ≠ "")
    (hbuild : env.unclusteredLayerIds.contains l.id = true) :
    (handleGlobalClick env e).callback =
      some { env.getBuildingLocationInfo feature with
        coordinates :=
          match feature.geometry with
          | some g => if g.type == "Point" then g.coordinates else e.lngLat
          | none => e.lngLat } := by
  have hb : l.id ∈ env.unclusteredLayerIds := by simpa using hbuild
  rw [handleGlobalClick_featurePath env m e feature rest l hm hcb hst hpol hz
    hpanel hq hl hid]
  unfold classifyOutcome
  simp [hb, displayCoordinates]

/-- C3 witness: a concrete building-layer click with point geometry
(12, 41) produces the building record with those coordinates, even
though the extractor itself set (0, 0). -/
theorem building_callback_coordinates_witness :
    sampleEnv.unclusteredLayerIds.contains "building-a" = true ∧
    (handleGlobalClick sampleEnv sampleEvent).callback =
      some { coordinates := (12, 41), data := "building" } :=
  ⟨rfl,
   (building_callback_coordinates sampleEnv sampleMap sampleEvent sampleFeature
      [] { id := "building-a" } rfl rfl rfl rfl (by decide) rfl rfl rfl
      (by decide) rfl).trans (by decide)⟩

/-- C6: for every click whose topmost feature has a JS-truthy layer id
belonging to neither layer set, the handler warns, never invokes the
callback, and has already claimed the event: framework `preventDefault`
plus the three native-event calls, all before classification. -/
theorem unclassified_layer_warns (env : Env) (m : MapInstance)
    (e : ClickEvent) (feature : Feature) (rest : List Feature) (l : Layer)
    (hm : env.mapInstance = some m)
    (hcb : env.hasCallback = true)
    (hst : m.styleLoaded = true)
    (hpol : env.canInteract m.zoom "minZoomForLabelClicks" = true)
    (hz : env.minZoomLevel < m.zoom)
    (hpanel : (env.panel.isOpen && !env.panel.isFullscreen) = false)
    (hq : queryInteractiveFeatures env e.point = some (feature :: rest))
    (hl : feature.layer = some l)
    (hid : l.id ≠ "")
    (hoe : e.hasOriginalEvent = true)
    (hnb : env.unclusteredLayerIds.contains l.id = false)
    (hnh : env.interactionLayerIds.contains l.id = false) :
    (handleGlobalClick env e).warned = true ∧
    (handleGlobalClick env e).callback = none ∧
    (handleGlobalClick env e).prevented = true ∧
    (handleGlobalClick env e).nativePrevented = true ∧
    (handleGlobalClick env e).nativeStopped = true ∧
    (handleGlobalClick env e).nativeImmediateStopped = true := by
  have hb : l.id ∉ env.unclusteredLayerIds := by simpa using hnb
  have hh : l.id ∉ env.interactionLayerIds := by simpa using hnh
  rw [handleGlobalClick_featurePath env m e feature rest l hm hcb hst hpol hz
    hpanel hq hl hid]
  unfold classifyOutcome
  simp [hb, hh, hoe, noEffect]

/-- C6 witness: a concrete click hitting a feature of layer "mystery"
(in neither set) warns, fires no callback, and claims the event. -/
theorem unclassified_layer_warns_witness :
    sampleEnvUnknown.unclusteredLayerIds.contains "mystery" = false ∧
    (handleGlobalClick sampleEnvUnknown sampleEvent).warned = true ∧
    (handleGlobalClick sampleEnvUnknown sampleEvent).callback = none ∧
    (handleGlobalClick sampleEnvUnknown sampleEvent).prevented = true :=
  ⟨rfl,
   (unclassified_layer_warns sampleEnvUnknown sampleMapUnknown sampleEvent
      sampleFeatureUnknown [] { id := "mystery" } rfl rfl rfl rfl (by decide)
      rfl rfl rfl (by decide) rfl rfl rfl).1,
   (unclassified_layer_warns sampleEnvUnknown sampleMapUnknown sampleEvent
      sampleFeatureUnknown [] { id := "mystery" } rfl rfl rfl rfl (by decide)
      rfl rfl rfl (by decide) rfl rfl rfl).2.1,
   (unclassified_layer_warns sampleEnvUnknown sampleMapUnknown sampleEvent
      sampleFeatureUnknown [] { id := "mystery" } rfl rfl rfl rfl (by decide)
      rfl rfl rfl (by decide) rfl rfl rfl).2.2.1⟩

/-- C10: for every click whose topmost feature's layer id belongs to
both the building set and the historical set, the building extractor is
the one invoked: the building set is tested first, so the callback
receives the building extractor's record (with overwritten display
coordinates). -/
theorem building_set_takes_priority (env : Env) (m : MapInstance)
    (e : ClickEvent) (feature : Feature) (rest : List Feature) (l : Layer)
    (hm : env.mapInstance = some m)
    (hcb : env.hasCallback = true)
    (hst : m.styleLoaded = true)
    (hpol : env.canInteract m.zoom "minZoomForLabelClicks" = true)
    (hz : env.minZoomLevel < m.zoom)
    (hpanel : (env.panel.isOpen && !env.panel.isFullscreen) = false)
    (hq : queryInteractiveFeatures env e.point = some (feature :: rest))
    (hl : feature.layer = some l)
    (hid : l.id ≠ "")
    (hbuild : env.unclusteredLayerIds.contains l.id = true)
    (_hhist : env.interactionLayerIds.contains l.id = true) :
    (handleGlobalClick env e).callback =
      some { env.getBuildingLocationInfo feature with
        coordinates := displayCoordinates feature e } := by
  have hb : l.id ∈ env.unclusteredLayerIds := by simpa using hbuild
  rw [handleGlobalClick_featurePath env m e feature rest l hm hcb hst hpol hz
    hpanel hq hl hid]
  unfold classifyOutcome
  simp [hb]

/-- C10 witness: with "building-a" present in both layer sets, the
concrete click produces the building extractor's record, not the
historical extractor's. -/
theorem building_set_takes_priority_witness :
    sampleEnvOverlap.unclusteredLayerIds.contains "building-a" = true ∧
    sampleEnvOverlap.interactionLayerIds.contains "building-a" = true ∧
    (handleGlobalClick sampleEnvOverlap sampleEvent).callback =
      some { coordinates := (12, 41), data := "building" } :=
  ⟨rfl, rfl,
   (building_set_takes_priority sampleEnvOverlap sampleMap sampleEvent
      sampleFeature [] { id := "building-a" } rfl rfl rfl rfl (by decide) rfl
      rfl rfl (by decide) rfl rfl).trans (by decide)⟩

/-- C8: for every click point the feature-query adapter yields an empty
result when the interactive layer id set is empty — without invoking the
underlying spatial query (the result is `some []` for every underlying
query function) — and yields a feature-less result (`undefined`,
modelled as `none`) when the map instance is absent. -/
theorem query_shortcircuits (env : Env) (p : ScreenPoint) :
    (env.unclusteredLayerIds ++ env.interactionLayerIds = [] →
      queryInteractiveFeatures env p = some [] ∧
      ∀ q, queryInteractiveFeatures (setQuery env q) p = some []) ∧
    (env.mapInstance = none →
      (queryInteractiveFeatures env p).getD [] = []) := by
  constructor
  · intro h
    constructor
    · unfold queryInteractiveFeatures
      simp [h]
    · intro q
      unfold queryInteractiveFeatures setQuery
      simp [h]
  · intro h
    by_cases hlen : (env.unclusteredLayerIds ++ env.interactionLayerIds).length = 0
    · unfold queryInteractiveFeatures
      simp [hlen]
    · unfold queryInteractiveFeatures
      simp [hlen, h]
      split <;> rfl

/-- C8 witness: with both layer lists empty the adapter returns `some
[]`; with no map instance the result carries no features. -/
theorem query_shortcircuits_witness :
    queryInteractiveFeatures sampleEnvNoLayers (100, 200) = some [] ∧
    (queryInteractiveFeatures sampleEnvNoMap (100, 200)).getD [] = [] :=
  ⟨((query_shortcircuits sampleEnvNoLayers (100, 200)).1 rfl).1,
   (query_shortcircuits sampleEnvNoMap (100, 200)).2 rfl⟩

/-- C9: the handler's return value is `false` exactly on the
panel-expand branch (store written), the unclassified-layer branch
(warning emitted) and the success branch (callback invoked), and is
`undefined` on every silent-abort branch; it is never any other value. -/
theorem retVal_handled_characterization (env : Env) (e : ClickEvent) :
    ((handleGlobalClick env e).retVal = none ∨
      (handleGlobalClick env e).retVal = some false) ∧
    ((handleGlobalClick env e).retVal = some false ↔
      ((handleGlobalClick env e).panelWritten = true ∨
        (handleGlobalClick env e).warned = true ∨
        (handleGlobalClick env e).callback ≠ none)) := by
  unfold handleGlobalClick classifyOutcome
  repeat' split
  all_goals simp [noEffect]

/-- Iterating the style-load event on a state with no pending one-shot
subscription changes nothing. -/
lemma fireStyleLoad_fixed (k : Nat) (s : RegState) (h : s.pendingOnce = 0) :
    fireStyleLoad^[k] s = s := by
  have hstep : fireStyleLoad s = s := by
    unfold fireStyleLoad
    simp [h]
  induction k with
  | zero => rfl
  | succ k ih => rw [Function.iterate_succ_apply, hstep, ih]

/-- Full description of one registration effect run followed by any
number of style-load firings, starting from the initial state. -/
lemma singleRun_state (sl : Bool) (n : Nat) :
    fireStyleLoad^[n] (effectRun true sl RegState.init) =
      if sl then
        { hasRegistered := true, listeners := 1, pendingOnce := 0 }
      else if n = 0 then
        { hasRegistered := false, listeners := 0, pendingOnce := 1 }
      else
        { hasRegistered := true, listeners := 1, pendingOnce := 0 } := by
  cases sl with
  | true =>
    have h0 : effectRun true true RegState.init =
        { hasRegistered := true, listeners := 1, pendingOnce := 0 } := by decide
    rw [h0, fireStyleLoad_fixed n _ rfl]
    simp
  | false =>
    have h0 : effectRun true false RegState.init =
        { hasRegistered := false, listeners := 0, pendingOnce := 1 } := by decide
    cases n with
    | zero => simp [h0]
    | succ k =>
      rw [h0, Function.iterate_succ_apply]
      have h1 : fireStyleLoad
          { hasRegistered := false, listeners := 0, pendingOnce := 1 } =
          { hasRegistered := true, listeners := 1, pendingOnce := 0 } := by decide
      rw [h1, fireStyleLoad_fixed k _ rfl]
      simp

/-- C4 counterexample: the cleanup never cancels a pending one-shot
"style.load" subscription, so the trace "effect run with style not
loaded; cleanup; effect run again; style loads" — a re-render changing
the handler identity while the style is still loading — attaches two
click listeners to the one map instance, refuting the at-most-one
invariant as claimed. -/
theorem registration_invariant_counterexample :
    (fireStyleLoad (effectRun true false
      (cleanupRun false (effectRun true false RegState.init)).1)).listeners = 2 := by
  decide

/-- C4 amended: the registration effect is a no-op whenever the flag is
already set; each one-shot "style.load" subscription fires at most once
(firing is idempotent); and within a single effect run per map instance
— no re-run while a subscription is pending — at most one listener is
ever attached, and exactly one once the style has loaded (immediately,
or at the first style-load firing no matter how often the event fires
afterwards). -/
theorem registration_idempotent_singleRun (sl : Bool) (n : Nat) :
    (∀ s : RegState, s.hasRegistered = true →
      ∀ mp sl2, effectRun mp sl2 s = s) ∧
    (∀ s : RegState, fireStyleLoad (fireStyleLoad s) = fireStyleLoad s) ∧
    (fireStyleLoad^[n] (effectRun true sl RegState.init)).listeners ≤ 1 ∧
    (sl = true ∨ 1 ≤ n →
      (fireStyleLoad^[n] (effectRun true sl RegState.init)).listeners = 1 ∧
      (fireStyleLoad^[n] (effectRun true sl RegState.init)).hasRegistered = true) := by
  refine ⟨?_, ?_, ?_, ?_⟩
  · intro s h mp sl2
    unfold effectRun
    simp [h]
  · intro s
    unfold fireStyleLoad
    by_cases h : s.pendingOnce = 0
    · simp [h]
    · simp [h]
  · rw [singleRun_state]
    cases sl with
    | true => simp
    | false => cases n with
      | zero => simp
      | succ k => simp
  · intro h
    rw [singleRun_state]
    cases sl with
    | true => simp
    | false =>
      rcases h with h | h
      · exact absurd h (by simp)
      · cases n with
        | zero => exact absurd h (by simp)
        | succ k => simp

/-- C4 amended witness: one effect run with the style unloaded followed
by one style-load firing attaches exactly one listener and sets the
flag. -/
theorem registration_idempotent_singleRun_witness :
    (1 : Nat) ≤ 1 ∧
    (fireStyleLoad^[1] (effectRun true false RegState.init)).listeners = 1 ∧
    (fireStyleLoad^[1] (effectRun true false RegState.init)).hasRegistered = true :=
  ⟨le_refl 1,
   ((registration_idempotent_singleRun false 1).2.2.2 (Or.inr (le_refl 1))).1,
   ((registration_idempotent_singleRun false 1).2.2.2 (Or.inr (le_refl 1))).2⟩

/-- C5: teardown always completes and always resets the registration
flag to false, even when the underlying detach call throws; the failure
is reported only as a logged warning (returned Bool), emitted exactly
when a registered listener's detach throws, and never propagated. -/
theorem teardown_always_resets_flag (s : RegState) (detachThrows : Bool) :
    (cleanupRun detachThrows s).1.hasRegistered = false ∧
    (cleanupRun detachThrows s).2 = (s.hasRegistered && detachThrows) := by
  unfold cleanupRun
  cases h : s.hasRegistered <;> cases detachThrows <;> simp [h]

end HeritageMap
